import Mathlib

/-!
Verification of the Zaitun bootstrap compiler's semantic-analysis core.

The definitions below are a shallow embedding of the Rust sources
`src/compiler/bootstrap/src/types.rs` (type checker and subtyping),
`src/compiler/bootstrap/src/safety.rs` (ownership tracker),
`src/compiler/bootstrap/src/pattern_check.rs` (match exhaustiveness), and
`src/compiler/bootstrap/src/error_handling.rs` (diagnostic rendering).
Rust `HashMap<String, _>` values are modelled as association lists queried
by first matching key; `usize` is modelled as `Nat`, with debug-mode
underflow panics made explicit through `Option` where a claim depends on
them.
-/

namespace Zaitun

deriving instance DecidableEq for Except

/-- Ty embeds the Rust `enum Type` of `types.rs` (named `Ty` because `Type`
is reserved in Lean); the derived Rust `PartialEq` is embedded as `tyBeq`
below. -/
inductive Ty where
  | Void
  | Bool
  | Int
  | Float
  | String
  | Array (elem : Ty)
  | Map (key : Ty) (value : Ty)
  | Function (params : List Ty) (ret : Ty)
  | Class (name : String)
  | Interface (name : String)
  | Struct (name : String)
  | Enum (name : String)
  | Optional (inner : Ty)
  | Union (members : List Ty)
  | Generic (name : String) (args : List Ty)
  | Unknown

mutual

/-- beq embeds the derived `PartialEq` of the Rust `enum Type`: deep
structural equality, used by the `sub == super_` shortcut of
`is_subtype`. -/
def tyBeq : Ty → Ty → Bool
  | .Void, .Void => true
  | .Bool, .Bool => true
  | .Int, .Int => true
  | .Float, .Float => true
  | .String, .String => true
  | .Array a, .Array b => tyBeq a b
  | .Map k v, .Map k' v' => tyBeq k k' && tyBeq v v'
  | .Function ps r, .Function qs s => tyListBeq ps qs && tyBeq r s
  | .Class a, .Class b => a == b
  | .Interface a, .Interface b => a == b
  | .Struct a, .Struct b => a == b
  | .Enum a, .Enum b => a == b
  | .Optional a, .Optional b => tyBeq a b
  | .Union ms, .Union ns => tyListBeq ms ns
  | .Generic n as, .Generic m bs => n == m && tyListBeq as bs
  | .Unknown, .Unknown => true
  | _, _ => false
termination_by a b => sizeOf a + sizeOf b

/-- listBeq embeds the elementwise `PartialEq` of `Vec<Type>`. -/
def tyListBeq : List Ty → List Ty → Bool
  | [], [] => true
  | a :: as, b :: bs => tyBeq a b && tyListBeq as bs
  | _, _ => false
termination_by l1 l2 => sizeOf l1 + sizeOf l2

end

/-- TypeChecker embeds the Rust `struct TypeChecker` of `types.rs`; the two
`HashMap<String, Vec<String>>` fields are association lists (the `type_env`
field is irrelevant to the checked claims and omitted). -/
structure TypeChecker where
  class_hierarchy : List (String × List String)
  interface_implementations : List (String × List String)
  deriving DecidableEq

namespace TypeChecker

/-- new embeds `TypeChecker::new`: both maps empty. -/
def new : TypeChecker := ⟨[], []⟩

/-- lookupH models `HashMap::get` on the association-list model: the value
at the first entry whose key matches. -/
def lookupH (m : List (String × List String)) (k : String) : Option (List String) :=
  (m.find? (fun p => p.1 == k)).map (fun p => p.2)

/-- hierInsert models `map.entry(k).or_insert_with(Vec::new).push(v)`:
append `v` to the vector at key `k`, creating the entry if absent. -/
def hierInsert : List (String × List String) → String → String → List (String × List String)
  | [], k, v => [(k, [v])]
  | (k', vs) :: rest, k, v =>
      if k' = k then (k', vs ++ [v]) :: rest else (k', vs) :: hierInsert rest k v

/-- add_class embeds `TypeChecker::add_class` of `types.rs` lines 96-101:
when a parent is named, push `name` onto the parent's subclass vector
(creating the entry); when no parent is named, do nothing. The Rust
function returns `()` and performs no duplicate, registration or cycle
checks. -/
def add_class (tc : TypeChecker) (name : String) (parent : Option String) : TypeChecker :=
  match parent with
  | some parent_name => { tc with class_hierarchy := hierInsert tc.class_hierarchy parent_name name }
  | none => tc

/-- is_subclassF embeds the recursion of `TypeChecker::is_subclass`
(`types.rs` lines 165-185) with an explicit fuel parameter: the Rust
recursion is unbounded and diverges on cyclic hierarchies, which
`add_class` never rules out; on any acyclic hierarchy the Rust function
terminates and agrees with this definition for every fuel of at least the
number of recorded child edges plus one. -/
def is_subclassF (tc : TypeChecker) : Nat → String → String → Bool
  | 0, _, _ => false
  | fuel + 1, sub, sup =>
      if sub = sup then true
      else
        match lookupH tc.class_hierarchy sup with
        | some subclasses =>
            subclasses.contains sub || subclasses.any (fun c => is_subclassF tc fuel sub c)
        | none => false

/-- edgeCount counts the recorded child edges of the hierarchy; any fuel
above it makes `is_subclassF` agree with the Rust recursion on acyclic
hierarchies (a recursion path visits distinct edges). -/
def edgeCount (tc : TypeChecker) : Nat :=
  tc.class_hierarchy.foldl (fun n p => n + p.2.length) 0

/-- is_subclass embeds `TypeChecker::is_subclass` via `is_subclassF` with
sufficient fuel for every acyclic hierarchy. -/
def is_subclass (tc : TypeChecker) (sub sup : String) : Bool :=
  is_subclassF tc (edgeCount tc + 1) sub sup

/-- implements_interface embeds `TypeChecker::implements_interface`
(`types.rs` lines 187-202): direct implementers, then implementers that
are superclasses of the class. -/
def implements_interface (tc : TypeChecker) (class_name interface_name : String) : Bool :=
  match lookupH tc.interface_implementations interface_name with
  | some implementers =>
      implementers.contains class_name ||
        implementers.any (fun im => is_subclass tc class_name im)
  | none => false

mutual

/-- is_subtype embeds `TypeChecker::is_subtype` of `types.rs` lines
108-163: the structural-equality shortcut, then the match arms in source
order — Optional supertype, Class/Class, Class/Interface, covariant
Array, Function (arity guard, contravariant parameters, covariant
return), the super-is-union arm, the sub-is-union arm, and the default
false. First matching arm wins, as in the Rust `match`. -/
def is_subtype (tc : TypeChecker) (sub sup : Ty) : Bool :=
  if tyBeq sub sup then true
  else
    match sub, sup with
    | inner, .Optional super_inner => is_subtype tc inner super_inner
    | .Class sub_name, .Class super_name => is_subclass tc sub_name super_name
    | .Class class_name, .Interface interface_name =>
        implements_interface tc class_name interface_name
    | .Array sub_elem, .Array super_elem => is_subtype tc sub_elem super_elem
    | .Function sub_params sub_return, .Function super_params super_return =>
        if sub_params.length ≠ super_params.length then false
        else contraParams tc super_params sub_params && is_subtype tc sub_return super_return
    | sub_type, .Union union_types => anyMember tc sub_type union_types
    | .Union union_types, super_type => allMembers tc union_types super_type
    | _, _ => false
termination_by sizeOf sub + sizeOf sup

/-- contraParams embeds the contravariant parameter loop of the Function
arm: each super-parameter must be a subtype of the matching sub-parameter
(the zip stops at the shorter list, as Rust's `zip` does; the arity guard
makes the lists equal in length at call sites). -/
def contraParams (tc : TypeChecker) : List Ty → List Ty → Bool
  | super_p :: super_rest, sub_p :: sub_rest =>
      is_subtype tc super_p sub_p && contraParams tc super_rest sub_rest
  | _, _ => true
termination_by l1 l2 => sizeOf l1 + sizeOf l2

/-- anyMember embeds `union_types.iter().any(...)` of the super-is-union
arm. -/
def anyMember (tc : TypeChecker) (sub : Ty) : List Ty → Bool
  | [] => false
  | u :: us => is_subtype tc sub u || anyMember tc sub us
termination_by l => sizeOf sub + sizeOf l

/-- allMembers embeds `union_types.iter().all(...)` of the sub-is-union
arm. -/
def allMembers (tc : TypeChecker) : List Ty → Ty → Bool
  | [], _ => true
  | m :: ms, sup => is_subtype tc m sup && allMembers tc ms sup
termination_by l sup => sizeOf l + sizeOf sup

end

end TypeChecker

/-- tyIsUnion decides whether a type is a `Union`, used to state which
match arm of `is_subtype` applies. -/
def tyIsUnion : Ty → Bool
  | .Union _ => true
  | _ => false

/-- tyIsOptional decides whether a type is an `Optional`. -/
def tyIsOptional : Ty → Bool
  | .Optional _ => true
  | _ => false

/-- OwnershipState embeds the Rust `enum OwnershipState` of `safety.rs`. -/
inductive OwnershipState where
  | Owned
  | Moved
  | Borrowed (count : Nat)
  | MutBorrowed
  deriving DecidableEq

/-- OwnershipError embeds the Rust `enum OwnershipError` of `safety.rs`. -/
inductive OwnershipError where
  | AlreadyDeclared (name : String)
  | Undeclared (name : String)
  | UseAfterMove (name : String)
  | MoveWhileBorrowed (name : String)
  | BorrowWhileMutBorrowed (name : String)
  | MutBorrowWhileBorrowed (name : String)
  | MutBorrowWhileMutBorrowed (name : String)
  | ReleaseUnborrowed (name : String)
  deriving DecidableEq

/-- OwnershipTracker embeds the Rust `struct OwnershipTracker` of
`safety.rs`; the `variables: HashMap<String, OwnershipState>` field is an
association list with at most one live entry per key (`vars` renders the
Rust field name `variables`, a reserved word in Lean). -/
structure OwnershipTracker where
  vars : List (String × OwnershipState)
  deriving DecidableEq

namespace OwnershipTracker

/-- new embeds `OwnershipTracker::new`: the empty map. -/
def new : OwnershipTracker := ⟨[]⟩

/-- getVar models `self.variables.get(name)`. -/
def getVar (t : OwnershipTracker) (name : String) : Option OwnershipState :=
  (t.vars.find? (fun p => p.1 == name)).map (fun p => p.2)

/-- insertVar models `self.variables.insert(name, state)`: the new entry
replaces any previous entry for `name`. -/
def insertVar (t : OwnershipTracker) (name : String) (st : OwnershipState) : OwnershipTracker :=
  ⟨(name, st) :: t.vars.filter (fun p => !(p.1 == name))⟩

/-- declare embeds `OwnershipTracker::declare` (`safety.rs` lines 207-214):
error when the key already exists, else insert `Owned`. -/
def declare (t : OwnershipTracker) (name : String) : Except OwnershipError OwnershipTracker :=
  if (getVar t name).isSome then .error (.AlreadyDeclared name)
  else .ok (insertVar t name .Owned)

/-- move_ownership embeds `OwnershipTracker::move_ownership` (`safety.rs`
lines 216-241); `frm` renders the Rust parameter `from`, and `dst` the parameter `to`, both
reserved words in Lean. On the `Owned` path the source first inserts `Moved` at `from`,
then inserts `Owned` at `to`. -/
def move_ownership (t : OwnershipTracker) (frm dst : String) :
    Except OwnershipError OwnershipTracker :=
  match getVar t frm with
  | some .Owned => .ok (insertVar (insertVar t frm .Moved) dst .Owned)
  | some .Moved => .error (.UseAfterMove frm)
  | some (.Borrowed _) => .error (.MoveWhileBorrowed frm)
  | some .MutBorrowed => .error (.MoveWhileBorrowed frm)
  | none => .error (.Undeclared frm)

/-- borrow embeds `OwnershipTracker::borrow` (`safety.rs` lines 243-265). -/
def borrow (t : OwnershipTracker) (name : String) : Except OwnershipError OwnershipTracker :=
  match getVar t name with
  | some .Owned => .ok (insertVar t name (.Borrowed 1))
  | some (.Borrowed count) => .ok (insertVar t name (.Borrowed (count + 1)))
  | some .Moved => .error (.UseAfterMove name)
  | some .MutBorrowed => .error (.BorrowWhileMutBorrowed name)
  | none => .error (.Undeclared name)

/-- borrow_mut embeds `OwnershipTracker::borrow_mut` (`safety.rs` lines
267-287). -/
def borrow_mut (t : OwnershipTracker) (name : String) : Except OwnershipError OwnershipTracker :=
  match getVar t name with
  | some .Owned => .ok (insertVar t name .MutBorrowed)
  | some (.Borrowed _) => .error (.MutBorrowWhileBorrowed name)
  | some .Moved => .error (.UseAfterMove name)
  | some .MutBorrowed => .error (.MutBorrowWhileMutBorrowed name)
  | none => .error (.Undeclared name)

/-- release_borrow embeds `OwnershipTracker::release_borrow` (`safety.rs`
lines 289-316). The Rust `match` tries the `Borrowed(1)` arm before the
`Borrowed(count)` arm; the `if count = 1` merges those two ordered arms.
The `count - 1` is `Nat` truncated subtraction; Rust would panic on
underflow, but that branch is only reachable from a state `Borrowed 0`,
which no operation ever produces. -/
def release_borrow (t : OwnershipTracker) (name : String) :
    Except OwnershipError OwnershipTracker :=
  match getVar t name with
  | some (.Borrowed count) =>
      if count = 1 then .ok (insertVar t name .Owned)
      else .ok (insertVar t name (.Borrowed (count - 1)))
  | some .MutBorrowed => .ok (insertVar t name .Owned)
  | some .Owned => .error (.ReleaseUnborrowed name)
  | some .Moved => .error (.UseAfterMove name)
  | none => .error (.Undeclared name)

end OwnershipTracker

/-- Op names one call of the tracker's public interface, for reasoning
about arbitrary call sequences. -/
inductive Op where
  | declare (name : String)
  | move (frm dst : String)
  | borrow (name : String)
  | borrowMut (name : String)
  | releaseBorrow (name : String)

namespace OwnershipTracker

/-- applyOp performs one call on the tracker. -/
def applyOp (t : OwnershipTracker) : Op → Except OwnershipError OwnershipTracker
  | .declare name => t.declare name
  | .move frm dst => t.move_ownership frm dst
  | .borrow name => t.borrow name
  | .borrowMut name => t.borrow_mut name
  | .releaseBorrow name => t.release_borrow name

/-- stepOp performs one call and keeps the previous table when the call
fails, exactly as the Rust error paths return before touching
`self.variables`. -/
def stepOp (t : OwnershipTracker) (op : Op) : OwnershipTracker :=
  match applyOp t op with
  | .ok t' => t'
  | .error _ => t

/-- runOps performs a whole call sequence from a starting tracker. -/
def runOps (t : OwnershipTracker) : List Op → OwnershipTracker
  | [] => t
  | op :: ops => runOps (stepOp t op) ops

end OwnershipTracker

/-- SourceLocation embeds the Rust `struct SourceLocation` of
`error_handling.rs`; the `PathBuf` file is modelled as its display
string. -/
structure SourceLocation where
  file : String
  line : Nat
  column : Nat
  deriving DecidableEq

/-- locStr embeds `Display for SourceLocation`: `file:line:column`. -/
def locStr (l : SourceLocation) : String :=
  l.file ++ ":" ++ toString l.line ++ ":" ++ toString l.column

/-- Span embeds the Rust `struct Span` of `error_handling.rs`; `stop`
renders the Rust field `end`, a reserved word in Lean. -/
structure Span where
  start : SourceLocation
  stop : SourceLocation
  deriving DecidableEq

/-- ErrorKind embeds the Rust `enum ErrorKind` of `error_handling.rs`;
`IOKind` renders the Rust variant for input-output errors. -/
inductive ErrorKind where
  | Syntax
  | Type
  | Name
  | Reference
  | Ownership
  | Safety
  | IOKind
  | Internal
  deriving DecidableEq

/-- kindStr embeds `Display for ErrorKind`. -/
def kindStr : ErrorKind → String
  | .Syntax => "Syntax error"
  | .Type => "Type error"
  | .Name => "Name error"
  | .Reference => "Reference error"
  | .Ownership => "Ownership error"
  | .Safety => "Safety error"
  | .IOKind => "I/O error"
  | .Internal => "Internal compiler error"

/-- CompileError embeds the Rust `struct CompileError` of
`error_handling.rs`. -/
structure CompileError where
  kind : ErrorKind
  message : String
  span : Option Span
  notes : List String
  help : Option String
  deriving DecidableEq

/-- csub models Rust debug-mode `usize` subtraction: `none` is the
arithmetic-underflow panic. -/
def csub (a b : Nat) : Option Nat :=
  if b ≤ a then some (a - b) else none

/-- splitNl splits a character list at newline characters; like
`String::split`, a trailing newline yields a final empty piece. -/
def splitNl : List Char → List (List Char)
  | [] => [[]]
  | c :: cs =>
      if c = '\n' then [] :: splitNl cs
      else
        match splitNl cs with
        | l :: ls => (c :: l) :: ls
        | [] => [[c]]

/-- stripCr removes one trailing carriage return, as Rust line splitting
treats a `\x0d\n` sequence as a single line ending. -/
def stripCr (l : List Char) : List Char :=
  if l.getLast? = some '\r' then l.dropLast else l

/-- rustLines models Rust `str::lines()`: split at newline characters,
strip a trailing carriage return from each line, and do not yield a final
empty line for a trailing newline. -/
def rustLines (s : String) : List String :=
  let parts := (splitNl s.data).map (fun l => String.mk (stripCr l))
  match parts.getLast? with
  | some "" => parts.dropLast
  | _ => parts

/-- repChar models a Rust loop pushing `n` copies of a character. -/
def repChar (n : Nat) (c : Char) : String :=
  String.mk (List.replicate n c)

/-- pad4 models the Rust format spec of width 4 for the line number:
right-aligned, space-padded, never truncated. -/
def pad4 (n : Nat) : String :=
  let s := toString n
  repChar (4 - s.length) ' ' ++ s

/-- notesStr models the notes loop of `format_with_source`. -/
def notesStr (notes : List String) : String :=
  String.join (notes.map (fun n => "note: " ++ n ++ "\n"))

/-- helpStr models the help block of `format_with_source`. -/
def helpStr : Option String → String
  | some h => "help: " ++ h ++ "\n"
  | none => ""

/-- format_with_source embeds `CompileError::format_with_source`
(`error_handling.rs` lines 96-138). The result is `none` exactly when the
Rust code would panic on a `usize` underflow, in one of `start.line - 1`,
`start.column - 1`, the single-line width `end.column - start.column`, or
the cross-line width `line.len() - start.column` (before its `+ 1`);
the caret count is clamped by `.max(1)` as in the source, and the String
length stands for the Rust byte length (they agree on ASCII text). -/
def format_with_source (e : CompileError) (source_code : String) : Option String :=
  let header := kindStr e.kind ++ ": " ++ e.message ++ "\n"
  match e.span with
  | none => some (header ++ notesStr e.notes ++ helpStr e.help)
  | some sp => do
      let arrow := "  --> " ++ locStr sp.start ++ "\n"
      let idx ← csub sp.start.line 1
      match (rustLines source_code).get? idx with
      | none => some (header ++ arrow ++ notesStr e.notes ++ helpStr e.help)
      | some line => do
          let spaces ← csub sp.start.column 1
          let width ←
            if sp.stop.line = sp.start.line then csub sp.stop.column sp.start.column
            else do
              let d ← csub line.length sp.start.column
              some (d + 1)
          some (header ++ arrow ++ "   |\n" ++ pad4 sp.start.line ++ " | " ++ line ++ "\n"
            ++ "   | " ++ repChar spaces ' ' ++ repChar (max width 1) '^' ++ "\n"
            ++ notesStr e.notes ++ helpStr e.help)

/-- Pattern is modelled from the spec: the AST module `crate::ast` named
by `pattern_check.rs` is not under `src/`; spec section 3 gives
`Pattern ∈ {EnumVariant(name, subpatterns), Wildcard, Literal, Binding}`.
The subpatterns and literal payloads are irrelevant to the exhaustiveness
logic (the source matches `Pattern::EnumVariant(name, _)`) and omitted. -/
inductive Pattern where
  | EnumVariant (name : String)
  | Wildcard
  | Literal
  | Binding
  deriving DecidableEq

/-- MatchArm is modelled from the spec: an arm carries a pattern. -/
structure MatchArm where
  pattern : Pattern
  deriving DecidableEq

/-- MatchExpr is modelled from the spec: scrutinee type, arms and the span
of the whole match expression, the fields `pattern_check.rs` reads. -/
structure MatchExpr where
  scrutinee_type : Ty
  arms : List MatchArm
  span : Span

/-- TypeRegistry is modelled from the spec: the registry of enum
declarations consumed by the exhaustiveness checker, an `EnumDefinition`
being a name plus its ordered variant names (`pattern_check.rs` reads only
`enum_def.variants[i].name`). -/
structure TypeRegistry where
  enums : List (String × List String)

/-- get_enum is modelled from the spec: registry lookup by enum name. -/
def TypeRegistry.get_enum (r : TypeRegistry) (name : String) : Option (List String) :=
  (r.enums.find? (fun p => p.1 == name)).map (fun p => p.2)

/-- has_wildcard_pattern is modelled from the spec: true iff any arm is a
`Wildcard` or an irrefutable `Binding`. -/
def MatchExpr.has_wildcard_pattern (me : MatchExpr) : Bool :=
  me.arms.any (fun arm =>
    match arm.pattern with
    | .Wildcard => true
    | .Binding => true
    | _ => false)

/-- coveredVariants embeds the `covered_variants` collection of
`pattern_check.rs`: the names of `EnumVariant` arm patterns (a `HashSet`,
so later membership tests collapse duplicates). -/
def coveredVariants (me : MatchExpr) : List String :=
  me.arms.filterMap (fun arm =>
    match arm.pattern with
    | .EnumVariant name => some name
    | _ => none)

/-- missingSet embeds the contents of
`all_variants.difference(&covered_variants)` of `pattern_check.rs`: the
set of declared variants not covered by an arm, as a duplicate-free list
here written in declaration order. The Rust `HashSet` (default
`RandomState` hasher) iterates these elements in an unspecified order, so
the checker below takes the iteration order as an explicit parameter
rather than fixing one. -/
def missingSet (all covered : List String) : List String :=
  (all.filter (fun v => !(covered.contains v))).dedup

/-- debugFmt embeds the Rust `{:?}` rendering of a vector of strings. -/
def debugFmt (l : List String) : String :=
  "[" ++ String.intercalate ", " (l.map (fun s => "\"" ++ s ++ "\"")) ++ "]"

/-- check embeds `ExhaustivenessChecker::check` (`pattern_check.rs` lines
14-52): for an enum-typed scrutinee whose enum is registered, emit one
diagnostic when some variant is missing and no arm is a wildcard; any
other scrutinee type, and any unregistered enum, yields no diagnostics.
The `iter` parameter stands for the unspecified iteration order in which
the Rust `HashSet` difference is collected into the `missing` vector:
any function that permutes its input is an admissible reading of the
source, and nothing in the source constrains the order further. The
emitted diagnostic's kind is modelled from the spec as `Type` (the
source's `CompileError::new(message, span)` call names no kind and does
not match the declared constructor of `crate::error::CompileError`). -/
def ExhaustivenessChecker.check (iter : List String → List String)
    (reg : TypeRegistry) (me : MatchExpr) : List CompileError :=
  match me.scrutinee_type with
  | .Enum enum_name =>
      match reg.get_enum enum_name with
      | some variants =>
          let missing := iter (missingSet variants (coveredVariants me))
          if !missing.isEmpty && !me.has_wildcard_pattern then
            [{ kind := .Type
               message := "Match is not exhaustive, missing variants: " ++ debugFmt missing
               span := some me.span
               notes := []
               help := none }]
          else []
      | none => []
  | _ => []

/-- tcDA is the checker of the function-variance test: only
`add_class("Dog", parent = "Animal")` has been called. -/
def tcDA : TypeChecker := TypeChecker.new.add_class "Dog" (some "Animal")

namespace OwnershipTracker

/-- c4t0 through c4t8 trace the spec's ownership test sequence, a failed
call keeping the previous table. -/
def c4t0 : OwnershipTracker := new

/-- c4t1 is the table after `declare("x")`. -/
def c4t1 : OwnershipTracker := c4t0.stepOp (.declare "x")

/-- c4t2 is the table after `move_ownership("x","y")`. -/
def c4t2 : OwnershipTracker := c4t1.stepOp (.move "x" "y")

/-- c4t3 is the table after the failing `move_ownership("x","z")`. -/
def c4t3 : OwnershipTracker := c4t2.stepOp (.move "x" "z")

/-- c4t4 is the table after the first `borrow("y")`. -/
def c4t4 : OwnershipTracker := c4t3.stepOp (.borrow "y")

/-- c4t5 is the table after the second `borrow("y")`. -/
def c4t5 : OwnershipTracker := c4t4.stepOp (.borrow "y")

/-- c4t6 is the table after the failing `borrow_mut("y")`. -/
def c4t6 : OwnershipTracker := c4t5.stepOp (.borrowMut "y")

/-- c4t7 is the table after the first `release_borrow("y")`. -/
def c4t7 : OwnershipTracker := c4t6.stepOp (.releaseBorrow "y")

/-- c4t8 is the table after the second `release_borrow("y")`. -/
def c4t8 : OwnershipTracker := c4t7.stepOp (.releaseBorrow "y")

/-- GoodState holds of a state the tracker may record: a borrow count is
at least one. -/
def GoodState : OwnershipState → Prop
  | .Borrowed n => 1 ≤ n
  | _ => True

/-- Inv holds when every recorded binding state is good. -/
def Inv (t : OwnershipTracker) : Prop := ∀ p ∈ t.vars, GoodState p.2

end OwnershipTracker

/-- colorReg registers the spec's test enum `Color{Red,Green,Blue}`. -/
def colorReg : TypeRegistry := ⟨[("Color", ["Red", "Green", "Blue"])]⟩

/-- colorSpan is the span of the test match expression. -/
def colorSpan : Span := ⟨⟨"main.zn", 3, 1⟩, ⟨"main.zn", 7, 2⟩⟩

/-- colorMatch matches a `Color` scrutinee against `Red` and `Green` only. -/
def colorMatch : MatchExpr :=
  ⟨.Enum "Color", [⟨.EnumVariant "Red"⟩, ⟨.EnumVariant "Green"⟩], colorSpan⟩

/-- colorMatchW is `colorMatch` with a wildcard arm added. -/
def colorMatchW : MatchExpr :=
  ⟨.Enum "Color", [⟨.EnumVariant "Red"⟩, ⟨.EnumVariant "Green"⟩, ⟨.Wildcard⟩], colorSpan⟩

/-- ghostMatch matches a scrutinee of the unregistered enum type `Ghost`,
covering nothing. -/
def ghostMatch : MatchExpr := ⟨.Enum "Ghost", [⟨.EnumVariant "Red"⟩], colorSpan⟩

/-- pairReg registers an enum `Pair{A,B}` whose two variants make the
listing order of a missing-variant set observable. -/
def pairReg : TypeRegistry := ⟨[("Pair", ["A", "B"])]⟩

/-- pairMatch matches a `Pair` scrutinee with no arms at all, so both
variants are missing. -/
def pairMatch : MatchExpr := ⟨.Enum "Pair", [], colorSpan⟩

/-- c7sp is a single-line span: line 2, columns 5 to 8 (end exclusive). -/
def c7sp : Span := ⟨⟨"main.zn", 2, 5⟩, ⟨"main.zn", 2, 8⟩⟩

/-- c7err is a diagnostic with a single-line span, one note and a help
text. -/
def c7err : CompileError :=
  ⟨.Type, "mismatched types", some c7sp, ["expected int"], some "change the type"⟩

/-- c7xsp is a span crossing from line 1 column 3 to line 2. -/
def c7xsp : Span := ⟨⟨"main.zn", 1, 3⟩, ⟨"main.zn", 2, 1⟩⟩

/-- c7xerr is a diagnostic with a line-crossing span. -/
def c7xerr : CompileError := ⟨.Name, "bad name", some c7xsp, [], none⟩

/-- c10sp is a line-crossing span whose start column is one past the end
of its two-character start line: allowed by the claimed end-exclusive
bound, yet the caret-width subtraction underflows on it. -/
def c10sp : Span := ⟨⟨"f.zn", 1, 3⟩, ⟨"f.zn", 2, 1⟩⟩

/-- c10err is the diagnostic carrying `c10sp`. -/
def c10err : CompileError := ⟨.Type, "bad span", some c10sp, [], none⟩

/-- c10zsp is a single-line span with a 0-based start column. -/
def c10zsp : Span := ⟨⟨"f.zn", 1, 0⟩, ⟨"f.zn", 1, 2⟩⟩

/-- c10zerr is the diagnostic carrying `c10zsp`. -/
def c10zerr : CompileError := ⟨.Type, "zero column", some c10zsp, [], none⟩

section Lemmas

/-- find?_key_filter_ne: removing the entries of one key does not change a
lookup of a different key. -/
theorem find?_key_filter_ne {α : Type} (n m : String) (h : m ≠ n) (l : List (String × α)) :
    (l.filter (fun p => !(p.1 == n))).find? (fun p => p.1 == m) =
      l.find? (fun p => p.1 == m) := by
  induction l with
  | nil => rfl
  | cons e rest ih =>
    by_cases he : e.1 = n
    · rw [List.filter_cons_of_neg (by simp [he])]
      rw [List.find?_cons_of_neg _ (by simp [he, Ne.symm h])]
      exact ih
    · rw [List.filter_cons_of_pos (by simp [he])]
      by_cases hm : e.1 = m
      · rw [List.find?_cons_of_pos _ (by simp [hm]), List.find?_cons_of_pos _ (by simp [hm])]
      · rw [List.find?_cons_of_neg _ (by simp [hm]), List.find?_cons_of_neg _ (by simp [hm])]
        exact ih

namespace TypeChecker

/-- anyMember is the `List.any` of the subtype test. -/
theorem anyMember_eq_any (tc : TypeChecker) (sub : Ty) (l : List Ty) :
    anyMember tc sub l = l.any (fun u => is_subtype tc sub u) := by
  induction l with
  | nil => simp [anyMember]
  | cons u us ih => simp [anyMember, ih]

/-- allMembers is the `List.all` of the subtype test. -/
theorem allMembers_eq_all (tc : TypeChecker) (l : List Ty) (sup : Ty) :
    allMembers tc l sup = l.all (fun m => is_subtype tc m sup) := by
  induction l with
  | nil => simp [allMembers]
  | cons m ms ih => simp [allMembers, ih]

/-- tyListBeq only accepts lists of equal length. -/
theorem tyListBeq_length {as bs : List Ty} (h : tyListBeq as bs = true) :
    as.length = bs.length := by
  induction as generalizing bs with
  | nil => cases bs with
    | nil => rfl
    | cons b bs => simp [tyListBeq] at h
  | cons a as ih =>
    cases bs with
    | nil => simp [tyListBeq] at h
    | cons b bs =>
      simp [tyListBeq] at h
      simp [ih h.2]

/-- hierInsert extends the vector at the inserted key. -/
theorem lookupH_hierInsert_self (m : List (String × List String)) (p c : String) :
    lookupH (hierInsert m p c) p = some ((lookupH m p).getD [] ++ [c]) := by
  induction m with
  | nil => simp [hierInsert, lookupH]
  | cons e rest ih =>
    obtain ⟨k, vs⟩ := e
    by_cases he : k = p
    · subst he
      simp [hierInsert, lookupH]
    · simp only [hierInsert, if_neg he, lookupH]
      rw [List.find?_cons_of_neg _ (by simp [he]), List.find?_cons_of_neg _ (by simp [he])]
      exact ih

/-- hierInsert does not touch the vectors of other keys. -/
theorem lookupH_hierInsert_other (m : List (String × List String)) (p c q : String)
    (h : q ≠ p) : lookupH (hierInsert m p c) q = lookupH m q := by
  induction m with
  | nil => simp [hierInsert, lookupH, Ne.symm h]
  | cons e rest ih =>
    obtain ⟨k, vs⟩ := e
    by_cases he : k = p
    · subst he
      simp only [hierInsert, lookupH, eq_self_iff_true, ite_true]
      rw [List.find?_cons_of_neg _ (by simp [Ne.symm h]),
        List.find?_cons_of_neg _ (by simp [Ne.symm h])]
    · simp only [hierInsert, if_neg he, lookupH]
      by_cases hq : k = q
      · subst hq
        rw [List.find?_cons_of_pos _ (by simp), List.find?_cons_of_pos _ (by simp)]
      · rw [List.find?_cons_of_neg _ (by simp [hq]), List.find?_cons_of_neg _ (by simp [hq])]
        exact ih

end TypeChecker

namespace OwnershipTracker

/-- insertVar shadows exactly the inserted key. -/
theorem getVar_insertVar (t : OwnershipTracker) (n m : String) (s : OwnershipState) :
    getVar (insertVar t n s) m = if m = n then some s else getVar t m := by
  by_cases h : m = n
  · subst h
    simp [getVar, insertVar, List.find?_cons_of_pos]
  · simp only [getVar, insertVar, h, if_neg h]
    rw [List.find?_cons_of_neg _ (by simp [Ne.symm h]), find?_key_filter_ne n m h]
    simp

theorem inv_new : Inv new := by intro p hp; simp [new] at hp

theorem inv_insertVar {t : OwnershipTracker} {st : OwnershipState} (ht : Inv t)
    (hst : GoodState st) (name : String) : Inv (insertVar t name st) := by
  intro p hp
  rcases List.mem_cons.mp hp with hp | hp
  · rw [hp]
    exact hst
  · exact ht p (List.mem_of_mem_filter hp)

theorem getVar_good {t : OwnershipTracker} {name : String} {st : OwnershipState}
    (ht : Inv t) (h : getVar t name = some st) : GoodState st := by
  unfold getVar at h
  cases hf : t.vars.find? (fun p => p.1 == name) with
  | none => rw [hf] at h; simp at h
  | some p =>
    rw [hf] at h
    simp at h
    have hm := List.mem_of_find?_eq_some hf
    have := ht p hm
    rwa [h] at this

theorem inv_stepOp {t : OwnershipTracker} (ht : Inv t) (op : Op) : Inv (stepOp t op) := by
  cases op with
  | declare name =>
    by_cases h : (getVar t name).isSome
    · simpa [stepOp, applyOp, declare, h] using ht
    · simp only [stepOp, applyOp, declare, h, Bool.false_eq_true, if_false]
      exact inv_insertVar ht (by simp [GoodState]) name
  | move frm dst =>
    cases hg : getVar t frm with
    | none => simpa [stepOp, applyOp, move_ownership, hg] using ht
    | some st =>
      cases st with
      | Owned =>
        simp only [stepOp, applyOp, move_ownership, hg]
        exact inv_insertVar (inv_insertVar ht (by simp [GoodState]) frm)
          (by simp [GoodState]) dst
      | Moved => simpa [stepOp, applyOp, move_ownership, hg] using ht
      | Borrowed n => simpa [stepOp, applyOp, move_ownership, hg] using ht
      | MutBorrowed => simpa [stepOp, applyOp, move_ownership, hg] using ht
  | borrow name =>
    cases hg : getVar t name with
    | none => simpa [stepOp, applyOp, borrow, hg] using ht
    | some st =>
      cases st with
      | Owned =>
        simp only [stepOp, applyOp, borrow, hg]
        exact inv_insertVar ht (by simp [GoodState]) name
      | Borrowed n =>
        simp only [stepOp, applyOp, borrow, hg]
        exact inv_insertVar ht (by simp [GoodState]) name
      | Moved => simpa [stepOp, applyOp, borrow, hg] using ht
      | MutBorrowed => simpa [stepOp, applyOp, borrow, hg] using ht
  | borrowMut name =>
    cases hg : getVar t name with
    | none => simpa [stepOp, applyOp, borrow_mut, hg] using ht
    | some st =>
      cases st with
      | Owned =>
        simp only [stepOp, applyOp, borrow_mut, hg]
        exact inv_insertVar ht (by simp [GoodState]) name
      | Borrowed n => simpa [stepOp, applyOp, borrow_mut, hg] using ht
      | Moved => simpa [stepOp, applyOp, borrow_mut, hg] using ht
      | MutBorrowed => simpa [stepOp, applyOp, borrow_mut, hg] using ht
  | releaseBorrow name =>
    cases hg : getVar t name with
    | none => simpa [stepOp, applyOp, release_borrow, hg] using ht
    | some st =>
      cases st with
      | Owned => simpa [stepOp, applyOp, release_borrow, hg] using ht
      | Moved => simpa [stepOp, applyOp, release_borrow, hg] using ht
      | MutBorrowed =>
        simp only [stepOp, applyOp, release_borrow, hg]
        exact inv_insertVar ht (by simp [GoodState]) name
      | Borrowed n =>
        have hn : (1 : Nat) ≤ n := getVar_good ht hg
        by_cases h1 : n = 1
        · simp only [stepOp, applyOp, release_borrow, hg, h1, if_true]
          exact inv_insertVar ht (by simp [GoodState]) name
        · simp only [stepOp, applyOp, release_borrow, hg, h1, if_false]
          exact inv_insertVar ht (by simp [GoodState]; omega) name

theorem inv_runOps {t : OwnershipTracker} (ht : Inv t) (ops : List Op) :
    Inv (runOps t ops) := by
  induction ops generalizing t with
  | nil => simpa [runOps] using ht
  | cons op ops ih => exact ih (inv_stepOp ht op)

theorem getVar_runOps_good (ops : List Op) (name : String) (st : OwnershipState)
    (h : getVar (runOps new ops) name = some st) : GoodState st :=
  getVar_good (inv_runOps inv_new ops) h

end OwnershipTracker

/-- csub succeeds without underflow. -/
theorem csub_eq_some {a b : Nat} (h : b ≤ a) : csub a b = some (a - b) := if_pos h

/-- csub underflows. -/
theorem csub_eq_none {a b : Nat} (h : a < b) : csub a b = none := if_neg (by omega)

/-- missingSet yields a duplicate-free list. -/
theorem missingSet_nodup (all covered : List String) :
    (missingSet all covered).Nodup :=
  List.nodup_dedup _

/-- missingSet yields exactly the declared variants not covered. -/
theorem mem_missingSet (all covered : List String) (v : String) :
    v ∈ missingSet all covered ↔ v ∈ all ∧ v ∉ covered := by
  simp [missingSet, List.mem_dedup, List.mem_filter]

/-- check on a registered enum scrutinee emits the single missing-variant
diagnostic exactly when a variant is missing and no arm is a wildcard,
for every admissible iteration order. -/
theorem checkEnumIterEq (iter : List String → List String)
    (hiter : ∀ l, (iter l).Perm l)
    (reg : TypeRegistry) (name : String) (variants : List String)
    (arms : List MatchArm) (sp : Span) (h : reg.get_enum name = some variants) :
    ExhaustivenessChecker.check iter reg ⟨.Enum name, arms, sp⟩ =
      (if missingSet variants (coveredVariants ⟨.Enum name, arms, sp⟩) ≠ [] ∧
          MatchExpr.has_wildcard_pattern ⟨.Enum name, arms, sp⟩ = false then
        [{ kind := .Type,
           message := "Match is not exhaustive, missing variants: " ++
             debugFmt (iter (missingSet variants (coveredVariants ⟨.Enum name, arms, sp⟩))),
           span := some sp, notes := [], help := none }]
      else []) := by
  simp only [ExhaustivenessChecker.check, h]
  have hnil0 : iter ([] : List String) = [] := (hiter []).eq_nil
  have hnil : iter (missingSet variants (coveredVariants ⟨.Enum name, arms, sp⟩)) = [] ↔
      missingSet variants (coveredVariants ⟨.Enum name, arms, sp⟩) = [] := by
    constructor
    · intro he
      have hp := hiter (missingSet variants (coveredVariants ⟨.Enum name, arms, sp⟩))
      rw [he] at hp
      exact hp.symm.eq_nil
    · intro he
      rw [he]
      exact hnil0
  by_cases hm : missingSet variants (coveredVariants ⟨.Enum name, arms, sp⟩) = [] <;>
    by_cases hw : MatchExpr.has_wildcard_pattern ⟨.Enum name, arms, sp⟩ = true <;>
      simp [hm, hw, List.isEmpty_iff, hnil, hnil0]

end Lemmas

/-- C1: the claim that `is_subtype(Union(members), super)` is true iff
every member is a subtype of `super`, with the sub-is-union rule tried
before the super-is-union rule, fails on the code: the source tries the
super-is-union (existential) arm first, so
`is_subtype(Union([Int,String]), Union([Int,String,Bool]))` is `false`
even though every member is a subtype of the right-hand union. -/
theorem claim_C1_counterexample :
    TypeChecker.is_subtype TypeChecker.new (.Union [.Int, .String])
        (.Union [.Int, .String, .Bool]) = false ∧
    ([Ty.Int, Ty.String].all fun m =>
        TypeChecker.is_subtype TypeChecker.new m (.Union [.Int, .String, .Bool])) = true := by
  constructor <;>
    simp [TypeChecker.is_subtype, TypeChecker.anyMember, TypeChecker.allMembers,
      TypeChecker.contraParams, tyBeq, tyListBeq, TypeChecker.is_subclass,
      TypeChecker.is_subclassF, TypeChecker.lookupH, TypeChecker.edgeCount, TypeChecker.new]

/-- C1 (amended): for a `super` that is neither a `Union` nor an
`Optional`, `is_subtype(Union(members), super)` is true iff every member
is a subtype of `super`; when `super` is a `Union` (and the sides are not
structurally equal) the super-is-union existential rule is applied
instead, because the source checks it first; and
`is_subtype(Union([Int,Bool]), Int) = false`. -/
theorem claim_C1_amended :
    (∀ (tc : TypeChecker) (ms : List Ty) (sup : Ty),
        tyIsUnion sup = false → tyIsOptional sup = false →
        TypeChecker.is_subtype tc (.Union ms) sup =
          ms.all fun m => TypeChecker.is_subtype tc m sup) ∧
    (∀ (tc : TypeChecker) (ms us : List Ty),
        tyBeq (.Union ms) (.Union us) = false →
        TypeChecker.is_subtype tc (.Union ms) (.Union us) =
          us.any fun u => TypeChecker.is_subtype tc (.Union ms) u) ∧
    TypeChecker.is_subtype TypeChecker.new (.Union [.Int, .Bool]) .Int = false := by
  refine ⟨?_, ?_, ?_⟩
  · intro tc ms sup hu ho
    cases sup <;>
      simp_all [TypeChecker.is_subtype, tyBeq, tyIsUnion, tyIsOptional,
        TypeChecker.allMembers_eq_all]
  · intro tc ms us h
    simp [TypeChecker.is_subtype, tyBeq, h, TypeChecker.anyMember_eq_any]
  · simp [TypeChecker.is_subtype, TypeChecker.anyMember, TypeChecker.allMembers,
      tyBeq, tyListBeq, TypeChecker.is_subclass, TypeChecker.is_subclassF,
      TypeChecker.lookupH, TypeChecker.edgeCount, TypeChecker.new]

/-- C1 witness: the amended universal rule evaluated at
`Union([Int,String])` against the non-union `Int`. -/
theorem claim_C1_witness :
    TypeChecker.is_subtype TypeChecker.new (.Union [.Int, .String]) .Int =
      ([Ty.Int, Ty.String].all fun m => TypeChecker.is_subtype TypeChecker.new m .Int) :=
  claim_C1_amended.1 TypeChecker.new [.Int, .String] .Int rfl rfl

/-- C2: the claim that `add_class` validates its input fails on the code:
calling `add_class("Dog", parent = "Animal")` with `"Animal"` nowhere
registered does not fail with a Reference error and does not leave the
hierarchy unchanged — it records the edge. -/
theorem claim_C2_counterexample :
    (TypeChecker.new.add_class "Dog" (some "Animal")).class_hierarchy ≠
      TypeChecker.new.class_hierarchy := by
  decide

/-- C2 (amended): `add_class(name, parent?)` cannot fail and performs no
validation: naming a parent appends `name` to the parent's direct-subclass
vector (creating the entry if absent) and changes nothing else, with no
duplicate, registration or cycle check; naming no parent leaves the
checker entirely unchanged, so the class is not recorded anywhere. -/
theorem claim_C2_amended :
    (∀ (tc : TypeChecker) (name : String), tc.add_class name none = tc) ∧
    (∀ (tc : TypeChecker) (name parent : String),
        TypeChecker.lookupH (tc.add_class name (some parent)).class_hierarchy parent =
          some ((TypeChecker.lookupH tc.class_hierarchy parent).getD [] ++ [name])) ∧
    (∀ (tc : TypeChecker) (name parent q : String), q ≠ parent →
        TypeChecker.lookupH (tc.add_class name (some parent)).class_hierarchy q =
          TypeChecker.lookupH tc.class_hierarchy q) ∧
    (∀ (tc : TypeChecker) (name parent : String),
        (tc.add_class name (some parent)).interface_implementations =
          tc.interface_implementations) := by
  refine ⟨fun tc name => rfl, ?_, ?_, fun tc name parent => rfl⟩
  · intro tc name parent
    exact TypeChecker.lookupH_hierInsert_self tc.class_hierarchy parent name
  · intro tc name parent q h
    exact TypeChecker.lookupH_hierInsert_other tc.class_hierarchy parent name q h

/-- C2 witness: adding `Dog` under `Animal` does not change the lookup of
the unrelated key `Cat`. -/
theorem claim_C2_witness :
    TypeChecker.lookupH (TypeChecker.new.add_class "Dog" (some "Animal")).class_hierarchy
        "Cat" = TypeChecker.lookupH TypeChecker.new.class_hierarchy "Cat" :=
  claim_C2_amended.2.2.1 TypeChecker.new "Dog" "Animal" "Cat" (by decide)

/-- C4: the spec's ownership test sequence behaves exactly as claimed:
declare then move succeed, a second move from the moved source fails with
UseAfterMove, two borrows leave `y` at `Borrowed(2)`, a mutable borrow
then fails with MutBorrowWhileBorrowed, two releases return `y` to
`Owned`, and a mutable borrow then succeeds; each failed call leaves the
table unchanged. -/
theorem claim_C4 :
    (OwnershipTracker.c4t0.declare "x" = .ok OwnershipTracker.c4t1) ∧
    (OwnershipTracker.c4t1.move_ownership "x" "y" = .ok OwnershipTracker.c4t2) ∧
    (OwnershipTracker.c4t2.move_ownership "x" "z" = .error (.UseAfterMove "x")) ∧
    (OwnershipTracker.c4t3 = OwnershipTracker.c4t2) ∧
    (OwnershipTracker.c4t3.borrow "y" = .ok OwnershipTracker.c4t4) ∧
    (OwnershipTracker.c4t4.borrow "y" = .ok OwnershipTracker.c4t5) ∧
    (OwnershipTracker.c4t5.getVar "y" = some (.Borrowed 2)) ∧
    (OwnershipTracker.c4t5.borrow_mut "y" = .error (.MutBorrowWhileBorrowed "y")) ∧
    (OwnershipTracker.c4t6 = OwnershipTracker.c4t5) ∧
    (OwnershipTracker.c4t6.release_borrow "y" = .ok OwnershipTracker.c4t7) ∧
    (OwnershipTracker.c4t7.release_borrow "y" = .ok OwnershipTracker.c4t8) ∧
    (OwnershipTracker.c4t8.getVar "y" = some .Owned) ∧
    ((OwnershipTracker.c4t8.borrow_mut "y").isOk = true) := by
  decide

/-- C5: with `Dog <: Animal` registered, `Function([Animal], Dog)` is a
subtype of `Function([Dog], Animal)` (contravariant parameters, covariant
return) but not conversely, and functions of unequal arity are never
subtypes. -/
theorem claim_C5 :
    TypeChecker.is_subtype tcDA (.Function [.Class "Animal"] (.Class "Dog"))
        (.Function [.Class "Dog"] (.Class "Animal")) = true ∧
    TypeChecker.is_subtype tcDA (.Function [.Class "Dog"] (.Class "Animal"))
        (.Function [.Class "Animal"] (.Class "Dog")) = false ∧
    (∀ (tc : TypeChecker) (ps : List Ty) (r : Ty) (qs : List Ty) (s : Ty),
        ps.length ≠ qs.length →
        TypeChecker.is_subtype tc (.Function ps r) (.Function qs s) = false) := by
  refine ⟨?_, ?_, ?_⟩
  · simp [TypeChecker.is_subtype, TypeChecker.contraParams, tyBeq, tyListBeq,
      TypeChecker.is_subclass, TypeChecker.is_subclassF, TypeChecker.lookupH,
      TypeChecker.edgeCount, TypeChecker.new, tcDA, TypeChecker.add_class,
      TypeChecker.hierInsert]
  · simp [TypeChecker.is_subtype, TypeChecker.contraParams, tyBeq, tyListBeq,
      TypeChecker.is_subclass, TypeChecker.is_subclassF, TypeChecker.lookupH,
      TypeChecker.edgeCount, TypeChecker.new, tcDA, TypeChecker.add_class,
      TypeChecker.hierInsert]
  · intro tc ps r qs s h
    have hbeq : tyBeq (.Function ps r) (.Function qs s) = false := by
      cases hb : tyListBeq ps qs with
      | true => exact absurd (TypeChecker.tyListBeq_length hb) h
      | false => simp [tyBeq, hb]
    simp [TypeChecker.is_subtype, hbeq, h]

/-- C5 witness: the arity rule evaluated at a nullary and a unary
function type. -/
theorem claim_C5_witness :
    TypeChecker.is_subtype TypeChecker.new (.Function [] .Void)
      (.Function [.Int] .Void) = false :=
  claim_C5.2.2 TypeChecker.new [] .Void [.Int] .Void (by decide)

/-- C6: the claim that a match on an unregistered enum is reported with a
Reference error fails on the code: the checker's `if let Some` silently
skips the match, so checking a non-exhaustive match on the unregistered
enum `Ghost` yields no diagnostics at all. -/
theorem claim_C6_counterexample :
    TypeRegistry.get_enum colorReg "Ghost" = none ∧
    ExhaustivenessChecker.check id colorReg ghostMatch = [] := by
  constructor <;> decide

/-- C6 (amended): for a match whose scrutinee type names an unregistered
enum, the exhaustiveness checker emits no diagnostics — the match is
silently accepted — whatever iteration order the hash sets produce. -/
theorem claim_C6_amended :
    ∀ (iter : List String → List String) (reg : TypeRegistry) (name : String)
      (arms : List MatchArm) (sp : Span),
      reg.get_enum name = none →
      ExhaustivenessChecker.check iter reg ⟨.Enum name, arms, sp⟩ = [] := by
  intro iter reg name arms sp h
  simp [ExhaustivenessChecker.check, h]

/-- C6 witness: the amended rule evaluated at the concrete `Ghost` match. -/
theorem claim_C6_witness :
    ExhaustivenessChecker.check id colorReg ghostMatch = [] :=
  claim_C6_amended id colorReg "Ghost" ghostMatch.arms colorSpan (by decide)

/-- C8: after any sequence of tracker calls from the empty table, every
recorded binding is in one of the four states, and a `Borrowed(n)` state
always has `n ≥ 1`; the states are mutually exclusive because the table
maps each name to exactly one state value. -/
theorem claim_C8 :
    ∀ (ops : List Op) (name : String) (st : OwnershipState),
      OwnershipTracker.getVar (OwnershipTracker.runOps OwnershipTracker.new ops) name =
          some st →
      st = .Owned ∨ st = .Moved ∨ (∃ n, st = .Borrowed n ∧ 1 ≤ n) ∨ st = .MutBorrowed := by
  intro ops name st h
  have hg := OwnershipTracker.getVar_runOps_good ops name st h
  cases st with
  | Owned => exact Or.inl rfl
  | Moved => exact Or.inr (Or.inl rfl)
  | Borrowed n => exact Or.inr (Or.inr (Or.inl ⟨n, rfl, hg⟩))
  | MutBorrowed => exact Or.inr (Or.inr (Or.inr rfl))

/-- C8 witness: the invariant evaluated after a declare and a borrow,
which leave `x` at `Borrowed(1)`. -/
theorem claim_C8_witness :
    OwnershipTracker.getVar
        (OwnershipTracker.runOps OwnershipTracker.new [.declare "x", .borrow "x"]) "x" =
      some (.Borrowed 1) ∧
    ((OwnershipState.Borrowed 1) = .Owned ∨ (OwnershipState.Borrowed 1) = .Moved ∨
      (∃ n, (OwnershipState.Borrowed 1) = .Borrowed n ∧ 1 ≤ n) ∨
      (OwnershipState.Borrowed 1) = .MutBorrowed) :=
  ⟨by decide, claim_C8 [.declare "x", .borrow "x"] "x" (.Borrowed 1) (by decide)⟩

/-- C9: a self-move of an `Owned` binding returns `Ok` and is a no-op:
the destination insert overwrites the `Moved` mark just written at the
same key, so the binding stays `Owned` and every lookup is unchanged. -/
theorem claim_C9 :
    ∀ (t : OwnershipTracker) (x : String),
      OwnershipTracker.getVar t x = some .Owned →
      ∃ t', t.move_ownership x x = .ok t' ∧
        OwnershipTracker.getVar t' x = some .Owned ∧
        ∀ y, OwnershipTracker.getVar t' y = OwnershipTracker.getVar t y := by
  intro t x h
  refine ⟨(t.insertVar x .Moved).insertVar x .Owned, ?_, ?_, ?_⟩
  · rw [OwnershipTracker.move_ownership, h]
  · rw [OwnershipTracker.getVar_insertVar, if_pos rfl]
  · intro y
    by_cases hy : y = x
    · subst hy
      rw [OwnershipTracker.getVar_insertVar, if_pos rfl, h]
    · rw [OwnershipTracker.getVar_insertVar, if_neg hy,
        OwnershipTracker.getVar_insertVar, if_neg hy]

/-- C9 witness: the self-move evaluated on a table holding only an owned
`x`. -/
theorem claim_C9_witness :
    ∃ t', OwnershipTracker.move_ownership ⟨[("x", .Owned)]⟩ "x" "x" = .ok t' ∧
      OwnershipTracker.getVar t' "x" = some .Owned ∧
      ∀ y, OwnershipTracker.getVar t' y =
        OwnershipTracker.getVar ⟨[("x", .Owned)]⟩ y :=
  claim_C9 ⟨[("x", .Owned)]⟩ "x" (by decide)

/-- C3: the claim that the emitted diagnostic lists the missing variant
names in sorted order fails on the code: `pattern_check.rs` collects the
`HashSet` difference in the hasher's unspecified iteration order and
never sorts it. Reversal is an admissible iteration order (a permutation
of the two-element missing set of `Pair{A,B}`), and under it the single
emitted diagnostic lists `["B", "A"]`, which is not sorted. -/
theorem claim_C3_counterexample :
    List.Perm (List.reverse (missingSet ["A", "B"] (coveredVariants pairMatch)))
      (missingSet ["A", "B"] (coveredVariants pairMatch)) ∧
    ExhaustivenessChecker.check List.reverse pairReg pairMatch =
      [{ kind := .Type,
         message := "Match is not exhaustive, missing variants: [\"B\", \"A\"]",
         span := some colorSpan, notes := [], help := none }] ∧
    ¬ List.Sorted (· ≤ ·) ["B", "A"] := by
  refine ⟨by decide, by decide, ?_⟩
  intro h
  exact (List.rel_of_sorted_cons h "A" (by decide))
    (String.lt_iff_toList_lt.mpr (by decide))

/-- C3 (amended): for a match on a registered enum and any admissible
iteration order (a permutation of the hash-set difference), the
exhaustiveness check emits exactly one Type-kind diagnostic naming the
missing variants — the set of declared variants minus the variants named
by EnumVariant arm patterns, without duplicates, in that unspecified
order — spanning the whole match, iff the set is non-empty and no arm is
a Wildcard or Binding; else it emits nothing. For `Color{Red,Green,Blue}`
with arms Red and Green the missing set is the singleton `{Blue}`, so
every admissible order yields one diagnostic naming `["Blue"]`; with a
Wildcard arm it emits none. -/
theorem claim_C3_amended :
    (∀ (iter : List String → List String), (∀ l, (iter l).Perm l) →
        ∀ (reg : TypeRegistry) (name : String) (variants : List String)
          (arms : List MatchArm) (sp : Span),
          reg.get_enum name = some variants →
          ExhaustivenessChecker.check iter reg ⟨.Enum name, arms, sp⟩ =
            (if missingSet variants (coveredVariants ⟨.Enum name, arms, sp⟩) ≠ [] ∧
                MatchExpr.has_wildcard_pattern ⟨.Enum name, arms, sp⟩ = false then
              [{ kind := .Type,
                 message := "Match is not exhaustive, missing variants: " ++
                   debugFmt (iter (missingSet variants
                     (coveredVariants ⟨.Enum name, arms, sp⟩))),
                 span := some sp, notes := [], help := none }]
            else [])) ∧
    (∀ all covered : List String,
        (missingSet all covered).Nodup ∧
        ∀ v, v ∈ missingSet all covered ↔ v ∈ all ∧ v ∉ covered) ∧
    (∀ (iter : List String → List String), (∀ l, (iter l).Perm l) →
        ExhaustivenessChecker.check iter colorReg colorMatch =
          [{ kind := .Type,
             message := "Match is not exhaustive, missing variants: [\"Blue\"]",
             span := some colorSpan, notes := [], help := none }]) ∧
    (∀ iter : List String → List String,
        ExhaustivenessChecker.check iter colorReg colorMatchW = []) := by
  refine ⟨checkEnumIterEq, ?_, ?_, ?_⟩
  · exact fun all covered =>
      ⟨missingSet_nodup all covered, mem_missingSet all covered⟩
  · intro iter hiter
    have h := checkEnumIterEq iter hiter colorReg "Color" ["Red", "Green", "Blue"]
      colorMatch.arms colorSpan (by decide)
    rw [show (⟨.Enum "Color", colorMatch.arms, colorSpan⟩ : MatchExpr) = colorMatch
      from rfl] at h
    have hset : missingSet ["Red", "Green", "Blue"] (coveredVariants colorMatch) =
        ["Blue"] := by decide
    rw [hset] at h
    have hone : iter ["Blue"] = ["Blue"] := List.perm_singleton.mp (hiter ["Blue"])
    rw [hone] at h
    rw [h]
    decide
  · intro iter
    simp [ExhaustivenessChecker.check, colorReg, colorMatchW, TypeRegistry.get_enum,
      MatchExpr.has_wildcard_pattern]

/-- C3 witness: the amended rule evaluated at the Color match with the
identity iteration order. -/
theorem claim_C3_witness :
    ExhaustivenessChecker.check id colorReg colorMatch =
      [{ kind := .Type,
         message := "Match is not exhaustive, missing variants: [\"Blue\"]",
         span := some colorSpan, notes := [], help := none }] :=
  claim_C3_amended.2.2.1 id (fun l => List.Perm.refl l)

/-- C7: for a well-formed single-line span (1-based line and column, end
at or after start, end exclusive) whose start line exists in the source,
format_with_source renders the kind-and-message header, the `-->` line,
the gutter, the numbered source line, and a caret line of
`start.column - 1` spaces followed by `max (end.column - start.column) 1`
carets, then the notes and finally the help; for a span crossing lines
(start column within the start line) the caret count is
`line length - start.column + 1`. -/
theorem claim_C7 :
    (∀ (e : CompileError) (src : String) (sp : Span) (line : String),
        e.span = some sp → sp.stop.line = sp.start.line →
        1 ≤ sp.start.line → 1 ≤ sp.start.column →
        sp.start.column ≤ sp.stop.column →
        (rustLines src)[sp.start.line - 1]? = some line →
        format_with_source e src = some
          (kindStr e.kind ++ ": " ++ e.message ++ "\n" ++
           "  --> " ++ sp.start.file ++ ":" ++ toString sp.start.line ++ ":" ++
             toString sp.start.column ++ "\n" ++
           "   |\n" ++ pad4 sp.start.line ++ " | " ++ line ++ "\n" ++
           "   | " ++ repChar (sp.start.column - 1) ' ' ++
           repChar (max (sp.stop.column - sp.start.column) 1) '^' ++ "\n" ++
           notesStr e.notes ++ helpStr e.help)) ∧
    (∀ (e : CompileError) (src : String) (sp : Span) (line : String),
        e.span = some sp → sp.stop.line ≠ sp.start.line →
        1 ≤ sp.start.line → 1 ≤ sp.start.column →
        sp.start.column ≤ line.length →
        (rustLines src)[sp.start.line - 1]? = some line →
        format_with_source e src = some
          (kindStr e.kind ++ ": " ++ e.message ++ "\n" ++
           "  --> " ++ sp.start.file ++ ":" ++ toString sp.start.line ++ ":" ++
             toString sp.start.column ++ "\n" ++
           "   |\n" ++ pad4 sp.start.line ++ " | " ++ line ++ "\n" ++
           "   | " ++ repChar (sp.start.column - 1) ' ' ++
           repChar (line.length - sp.start.column + 1) '^' ++ "\n" ++
           notesStr e.notes ++ helpStr e.help)) := by
  constructor
  · intro e src sp line hspan hsame hl hc hce hline
    simp [format_with_source, hspan, csub_eq_some hl, csub_eq_some hc, csub_eq_some hce,
      hsame, hline, locStr, String.append_assoc]
    rw [show ∀ x : String, "\n" ++ ("  --> " ++ x) = "\n  --> " ++ x from
      fun x => by rw [← String.append_assoc]; rfl]
  · intro e src sp line hspan hdiff hl hc hcl hline
    simp [format_with_source, hspan, csub_eq_some hl, csub_eq_some hc, csub_eq_some hcl,
      hdiff, hline, locStr, String.append_assoc,
      Nat.max_eq_left (by omega : (1 : Nat) ≤ line.length - sp.start.column + 1)]
    rw [show ∀ x : String, "\n" ++ ("  --> " ++ x) = "\n  --> " ++ x from
      fun x => by rw [← String.append_assoc]; rfl]

/-- C7 witness: both rendering rules evaluated on concrete diagnostics —
a single-line span over columns 5 to 8 of line 2, and a line-crossing
span starting at column 3 of a four-character line. -/
theorem claim_C7_witness :
    format_with_source c7err "let a = 1;\nlet b = ab;" = some
      (kindStr c7err.kind ++ ": " ++ c7err.message ++ "\n" ++
       "  --> " ++ c7sp.start.file ++ ":" ++ toString c7sp.start.line ++ ":" ++
         toString c7sp.start.column ++ "\n" ++
       "   |\n" ++ pad4 c7sp.start.line ++ " | " ++ "let b = ab;" ++ "\n" ++
       "   | " ++ repChar (c7sp.start.column - 1) ' ' ++
       repChar (max (c7sp.stop.column - c7sp.start.column) 1) '^' ++ "\n" ++
       notesStr c7err.notes ++ helpStr c7err.help) ∧
    format_with_source c7xerr "abcd\nef" = some
      (kindStr c7xerr.kind ++ ": " ++ c7xerr.message ++ "\n" ++
       "  --> " ++ c7xsp.start.file ++ ":" ++ toString c7xsp.start.line ++ ":" ++
         toString c7xsp.start.column ++ "\n" ++
       "   |\n" ++ pad4 c7xsp.start.line ++ " | " ++ "abcd" ++ "\n" ++
       "   | " ++ repChar (c7xsp.start.column - 1) ' ' ++
       repChar ("abcd".length - c7xsp.start.column + 1) '^' ++ "\n" ++
       notesStr c7xerr.notes ++ helpStr c7xerr.help) :=
  ⟨claim_C7.1 c7err "let a = 1;\nlet b = ab;" c7sp "let b = ab;" rfl rfl (by decide)
      (by decide) (by decide) (by decide),
   claim_C7.2 c7xerr "abcd\nef" c7xsp "abcd" rfl (by decide) (by decide) (by decide)
      (by decide) (by decide)⟩

/-- C10: the claim's precondition for line-crossing spans
(`start.column ≤ line length + 1`) is too weak: on a span from column 3
of the two-character line `"ab"` to the next line, all the claimed
preconditions hold, yet the caret-width subtraction
`line.len() - start.column` underflows and the call panics (modelled as
`none`). -/
theorem claim_C10_counterexample :
    c10err.span = some c10sp ∧ 1 ≤ c10sp.start.column ∧
    c10sp.stop.line ≠ c10sp.start.line ∧
    (rustLines "ab\ncd")[c10sp.start.line - 1]? = some "ab" ∧
    c10sp.start.column ≤ "ab".length + 1 ∧
    format_with_source c10err "ab\ncd" = none := by
  decide

/-- C10 (amended): format_with_source does not panic for any diagnostic
whose span has a 1-based start line and column, end column at or after
the start column when the span is single-line, and start column at most
the start-line length when the span crosses lines; conversely, when the
start line is 1-based and exists in the source, a 0-based start column,
a single-line span with end column before start column, or a
line-crossing span with start column beyond the line length makes the
call panic. -/
theorem claim_C10_amended :
    (∀ (e : CompileError) (src : String),
        (∀ sp, e.span = some sp →
          1 ≤ sp.start.line ∧ 1 ≤ sp.start.column ∧
          (sp.stop.line = sp.start.line → sp.start.column ≤ sp.stop.column) ∧
          (sp.stop.line ≠ sp.start.line → ∀ line,
            (rustLines src)[sp.start.line - 1]? = some line →
            sp.start.column ≤ line.length)) →
        (format_with_source e src).isSome = true) ∧
    (∀ (e : CompileError) (src : String) (sp : Span) (line : String),
        e.span = some sp → 1 ≤ sp.start.line →
        (rustLines src)[sp.start.line - 1]? = some line →
        (sp.start.column = 0 ∨
          (sp.stop.line = sp.start.line ∧ sp.stop.column < sp.start.column) ∨
          (sp.stop.line ≠ sp.start.line ∧ line.length < sp.start.column)) →
        format_with_source e src = none) := by
  constructor
  · intro e src h
    cases hspan : e.span with
    | none => simp [format_with_source, hspan]
    | some sp =>
      obtain ⟨h1, h2, h3, h4⟩ := h sp hspan
      cases hline : (rustLines src)[sp.start.line - 1]? with
      | none => simp [format_with_source, hspan, csub_eq_some h1, hline]
      | some line =>
        by_cases hsame : sp.stop.line = sp.start.line
        · simp [format_with_source, hspan, csub_eq_some h1, hline, csub_eq_some h2,
            hsame, csub_eq_some (h3 hsame)]
        · simp [format_with_source, hspan, csub_eq_some h1, hline, csub_eq_some h2,
            hsame, csub_eq_some (h4 hsame line hline)]
  · intro e src sp line hspan hl hline hviol
    rcases hviol with h0 | ⟨hsame, hlt⟩ | ⟨hdiff, hlen⟩
    · simp [format_with_source, hspan, csub_eq_some hl, hline, h0, csub_eq_none]
    · by_cases h0 : sp.start.column = 0
      · simp [format_with_source, hspan, csub_eq_some hl, hline, h0, csub_eq_none]
      · simp [format_with_source, hspan, csub_eq_some hl, hline, hsame,
          csub_eq_some (by omega : 1 ≤ sp.start.column), csub_eq_none hlt]
    · by_cases h0 : sp.start.column = 0
      · omega
      · simp [format_with_source, hspan, csub_eq_some hl, hline, hdiff,
          csub_eq_some (by omega : 1 ≤ sp.start.column), csub_eq_none hlen]

/-- C10 witness: the no-panic rule evaluated on the well-formed
single-line diagnostic, and the panic rule evaluated on a 0-based start
column. -/
theorem claim_C10_witness :
    (format_with_source c7err "let a = 1;\nlet b = ab;").isSome = true ∧
    format_with_source c10zerr "ab" = none :=
  ⟨claim_C10_amended.1 c7err "let a = 1;\nlet b = ab;" (fun sp hsp => by
      rw [show c7err.span = some c7sp from rfl] at hsp
      cases hsp
      exact ⟨by decide, by decide, fun _ => by decide, fun h _ _ => absurd rfl h⟩),
   claim_C10_amended.2 c10zerr "ab" c10zsp "ab" rfl (by decide) (by decide)
      (Or.inl (by decide))⟩

end Zaitun
